import Mathlib

/-!
Verification of the news-tracker pipeline (clusters, articles, relevance gate,
normalizer, retention cleanup, grouped read model, search client) against its
natural-language specification.

The Python source is shallowly embedded: SQLAlchemy-backed mutable state
becomes explicit state passing over `DBState`; datetimes used only for
ordering become an abstract integer time; the network and the ML models
(spaCy NER, sentence-transformer embeddings) are taken as function
parameters since the source treats them as external oracles.
-/

namespace NewsTracker

/-- Abstract UTC time for the database layer.  The source only compares
datetimes (`<`, `>=`) and subtracts `timedelta(days=n)`, so an integer
measured in days is a faithful carrier for those operations. -/
abbrev Time := Int

/-- Row of `news_articles` (class `NewsArticle` in `database.py`).
`sentiment_score` is `0.0` everywhere in this pipeline, carried as an `Int`.
The `is_duplicate` column keeps its default `0` and is never read, so it is
omitted. -/
structure NewsArticle where
  id : String
  cluster_id : Option String
  title : String
  content : String
  source_name : String
  url : String
  published_date : Time
  collected_date : Time
  person_tracked : String
  language : String
  sentiment_score : Int
  category : String
  data_source : String
deriving DecidableEq, Repr

/-- Row of `news_clusters` (class `NewsCluster` in `database.py`). -/
structure NewsCluster where
  id : String
  representative_title : String
  person_tracked : String
  category : String
  source_count : Int
  first_published : Time
  created_date : Time
deriving DecidableEq, Repr

/-- The `cluster_data` dict passed to `Database.add_cluster`
(built by the data processor; `created_date` takes its column default). -/
structure ClusterData where
  id : String
  representative_title : String
  person_tracked : String
  category : String
  source_count : Int
  first_published : Time
deriving DecidableEq, Repr

/-- The `art_data` dict passed to `NewsArticle(**art_data)`:
all columns except `cluster_id` (supplied by the store) and
`collected_date` / `is_duplicate` (column defaults). -/
structure ArticleData where
  id : String
  title : String
  content : String
  source_name : String
  url : String
  published_date : Time
  person_tracked : String
  language : String
  sentiment_score : Int
  category : String
  data_source : String
deriving DecidableEq, Repr

/-- Whole-database state: the two tables. -/
structure DBState where
  clusters : List NewsCluster
  articles : List NewsArticle
deriving DecidableEq, Repr

def emptyDB : DBState := { clusters := [], articles := [] }

/-- `session.query(NewsArticle).filter_by(url=u).first()`. -/
def findArticleByUrl (arts : List NewsArticle) (u : String) : Option NewsArticle :=
  arts.find? (fun a => a.url == u)

/-- `session.query(NewsCluster).filter_by(id=i).first()`. -/
def findClusterById (cs : List NewsCluster) (i : String) : Option NewsCluster :=
  cs.find? (fun c => c.id == i)

/-- Materialize `NewsArticle(**art_data, cluster_id=cid)`;
`collected_date` takes its `datetime.utcnow` column default. -/
def mkArticle (now : Time) (d : ArticleData) (cid : Option String) : NewsArticle :=
  { id := d.id
    cluster_id := cid
    title := d.title
    content := d.content
    source_name := d.source_name
    url := d.url
    published_date := d.published_date
    collected_date := now
    person_tracked := d.person_tracked
    language := d.language
    sentiment_score := d.sentiment_score
    category := d.category
    data_source := d.data_source }

/-- The article-insertion loop shared by both branches of `add_cluster` and by
`bulk_add_articles`: for each `art_data`, skip it when its URL is already
present, otherwise add the row.  Each URL lookup autoflushes the pending
inserts of earlier iterations, so later items are checked against the rows
added earlier in the same batch; this is modelled by threading the grown
table through the recursion.  Returns the table and the number added. -/
def insertArticles (now : Time) (cid : Option String) (arts : List NewsArticle) :
    List ArticleData → List NewsArticle × Nat
  | [] => (arts, 0)
  | d :: rest =>
    if (findArticleByUrl arts d.url).isSome then
      insertArticles now cid arts rest
    else
      let r := insertArticles now cid (arts ++ [mkArticle now d cid]) rest
      (r.1, r.2 + 1)

/-- Number of article rows currently linked to cluster `cid`. -/
def linkedCount (arts : List NewsArticle) (cid : String) : Nat :=
  (arts.filter (fun a => a.cluster_id == some cid)).length

/-- Overwrite `source_count` of the cluster row with id `cid`. -/
def setSourceCount (cs : List NewsCluster) (cid : String) (n : Int) : List NewsCluster :=
  cs.map (fun c => if c.id == cid then { c with source_count := n } else c)

/-- `Database.add_cluster(cluster_data, articles_data)`.
Merge branch: the line `existing.source_count = len(existing.articles) + new_count`
reads the lazy `articles` relationship, and that lazy load autoflushes the
articles just added in this very call (session autoflush precedes every
query, lazy loads included), so `len(existing.articles)` counts the old rows
*and* the `new_count` rows just inserted.  New branch: the cluster row is
created from `cluster_data`, articles are inserted with the same URL check,
and `source_count` is overwritten with the number actually added.
Returns the count of newly persisted articles and the new state. -/
def add_cluster (now : Time) (cd : ClusterData) (ads : List ArticleData)
    (st : DBState) : Nat × DBState :=
  match findClusterById st.clusters cd.id with
  | some existing =>
    let r := insertArticles now (some existing.id) st.articles ads
    let lenArticles := linkedCount r.1 existing.id
    ( r.2,
      { clusters := setSourceCount st.clusters existing.id (lenArticles + r.2)
        articles := r.1 } )
  | none =>
    let cl : NewsCluster :=
      { id := cd.id
        representative_title := cd.representative_title
        person_tracked := cd.person_tracked
        category := cd.category
        source_count := cd.source_count
        first_published := cd.first_published
        created_date := now }
    let r := insertArticles now (some cl.id) st.articles ads
    ( r.2,
      { clusters := setSourceCount (st.clusters ++ [cl]) cl.id (r.2 : Int)
        articles := r.1 } )

/-- `Database.add_unclustered_article(article_data)`: persists a standalone
article when its URL is not already present; returns whether it was added. -/
def add_unclustered_article (now : Time) (d : ArticleData) (st : DBState) :
    Bool × DBState :=
  if (findArticleByUrl st.articles d.url).isSome then
    (false, st)
  else
    (true, { st with articles := st.articles ++ [mkArticle now d none] })

/-- `Database.bulk_add_articles(articles_data)`. -/
def bulk_add_articles (now : Time) (ads : List ArticleData) (st : DBState) :
    Nat × DBState :=
  let r := insertArticles now none st.articles ads
  (r.2, { st with articles := r.1 })

/-- `Database.cleanup_old_data(days)`: bulk `query.delete()` of articles with
`collected_date < cutoff` and of clusters with `created_date < cutoff`.
Bulk deletes bypass the ORM `delete-orphan` cascade and SQLite does not
enforce the foreign key, so article rows of a deleted cluster are NOT
removed: only the two row-level filters apply.  Returns the number of
deleted articles and the new state. -/
def cleanup_old_data (now : Time) (days : Int) (st : DBState) : Nat × DBState :=
  let cutoff := now - days
  let keptArts := st.articles.filter (fun a => !(decide (a.collected_date < cutoff)))
  let keptClusters := st.clusters.filter (fun c => !(decide (c.created_date < cutoff)))
  (st.articles.length - keptArts.length, { clusters := keptClusters, articles := keptArts })

/-- Insert `x` into a list sorted by `key` in descending order
(model of SQL `ORDER BY key DESC`). -/
def insertDescBy (key : α → Time) (x : α) : List α → List α
  | [] => [x]
  | y :: ys => if key y ≤ key x then x :: y :: ys else y :: insertDescBy key x ys

/-- Sort by `key` descending (insertion sort). -/
def sortDescBy (key : α → Time) : List α → List α
  | [] => []
  | x :: xs => insertDescBy key x (sortDescBy key xs)

/-- Insert a string into an ascending sorted list (model of Python `sorted`). -/
def insertAscStr (x : String) : List String → List String
  | [] => [x]
  | y :: ys => if x < y then x :: y :: ys else y :: insertAscStr x ys

/-- Ascending sort of strings. -/
def sortStr : List String → List String
  | [] => []
  | x :: xs => insertAscStr x (sortStr xs)

/-- Python `sorted(set(xs))`: ascending list of the distinct elements. -/
def sortedSet (xs : List String) : List String :=
  sortStr xs.eraseDups

/-- One element of the `sources` list inside a grouped story. -/
structure SourceEntry where
  name : String
  url : String
  language : String
  title : String
deriving DecidableEq, Repr

/-- One story dict produced by `Database.get_stories_grouped`.
`source_names` and `languages` are the `', '.join(sorted(...))` strings;
`published` keeps the timestamp that the source formats with `strftime`. -/
structure Story where
  id : String
  headline : String
  person : String
  category : String
  source_count : Nat
  source_names : String
  sources : List SourceEntry
  languages : String
  published : Time
deriving DecidableEq, Repr

/-- The story dict built for one cluster inside `get_stories_grouped`:
sources and counts are recomputed from the article rows linked to the
cluster (`c.articles`); the stored `source_count` column is not read. -/
def clusterStory (arts : List NewsArticle) (c : NewsCluster) : Story :=
  let linked := arts.filter (fun a => a.cluster_id == some c.id)
  { id := c.id
    headline := c.representative_title
    person := c.person_tracked
    category := c.category
    source_count := linked.length
    source_names := String.intercalate ", " (sortedSet (linked.map (·.source_name)))
    sources := linked.map (fun a =>
      { name := a.source_name, url := a.url, language := a.language, title := a.title })
    languages := String.intercalate ", "
      (sortedSet ((linked.filter (fun a => a.language != "")).map (·.language)))
    published := c.first_published }

/-- The story dict built for one unclustered article inside
`get_stories_grouped` (`'source_count': 1`, `art.category or 'Other'`,
`art.language or ''`). -/
def articleStory (a : NewsArticle) : Story :=
  { id := a.id
    headline := a.title
    person := a.person_tracked
    category := if a.category == "" then "Other" else a.category
    source_count := 1
    source_names := a.source_name
    sources := [{ name := a.source_name, url := a.url, language := a.language, title := a.title }]
    languages := a.language
    published := a.published_date }

/-- Optional `person` filter used by the query operations. -/
def matchPerson (person : Option String) (s : String) : Bool :=
  match person with
  | none => true
  | some p => s == p

/-- `Database.get_stories_grouped(days, person)`: clusters created within the
lookback window (ordered by `first_published` desc) each become a story with
recomputed sources, followed by the unclustered articles collected within
the window (ordered by `published_date` desc), each as a singleton story. -/
def get_stories_grouped (st : DBState) (now : Time) (days : Int)
    (person : Option String) : List Story :=
  let cutoff := now - days
  let cs := st.clusters.filter
    (fun c => decide (cutoff ≤ c.created_date) && matchPerson person c.person_tracked)
  let cs := sortDescBy (·.first_published) cs
  let uncl := st.articles.filter
    (fun a => decide (cutoff ≤ a.collected_date) && a.cluster_id == none
      && matchPerson person a.person_tracked)
  let uncl := sortDescBy (·.published_date) uncl
  cs.map (clusterStory st.articles) ++ uncl.map articleStory

/-- One call to a mutating entry point of the `Database` class. -/
inductive DBOp where
  | addCluster (now : Time) (cd : ClusterData) (ads : List ArticleData)
  | addUnclustered (now : Time) (d : ArticleData)
  | bulkAdd (now : Time) (ads : List ArticleData)
  | cleanup (now : Time) (days : Int)
deriving Repr

/-- Apply one database operation, dropping the returned value. -/
def applyOp (st : DBState) : DBOp → DBState
  | .addCluster now cd ads => (add_cluster now cd ads st).2
  | .addUnclustered now d => (add_unclustered_article now d st).2
  | .bulkAdd now ads => (bulk_add_articles now ads st).2
  | .cleanup now days => (cleanup_old_data now days st).2

/-- Apply a sequence of database operations left to right. -/
def applyOps (st : DBState) : List DBOp → DBState
  | [] => st
  | op :: ops => applyOps (applyOp st op) ops

/-- A URL is already present in the article table. -/
def urlStored (arts : List NewsArticle) (u : String) : Bool :=
  (findArticleByUrl arts u).isSome

/-- The stored `source_count` column of the cluster row `cid`, if any. -/
def sourceCountOf (st : DBState) (cid : String) : Option Int :=
  (findClusterById st.clusters cid).map (·.source_count)

/-! ### Date parsing (`datetime.strptime` over the format lists of the two
`_parse_date` helpers) -/

/-- A parsed timestamp: the fields of a Python `datetime`.  `tzmin` is the
timezone offset in minutes when the parse produced an aware datetime
(`%Z` matching UTC/GMT, or `%z`), `none` for a naive one. -/
structure DateTime where
  year : Nat
  month : Nat
  day : Nat
  hour : Nat
  minute : Nat
  second : Nat
  usec : Nat
  tzmin : Option Int
deriving DecidableEq, Repr

/-- strptime accumulator with the Python defaults (1900-01-01 00:00:00). -/
def pd0 : DateTime := ⟨1900, 1, 1, 0, 0, 0, 0, none⟩

/-- Numeric value of a digit run. -/
def digitsVal (ds : List Char) : Nat :=
  ds.foldl (fun n c => n * 10 + (c.toNat - 48)) 0

/-- Take up to `n` leading digits. -/
def takeDigits : Nat → List Char → List Char × List Char
  | 0, s => ([], s)
  | _ + 1, [] => ([], [])
  | n + 1, c :: s =>
    if c.isDigit then
      let r := takeDigits n s
      (c :: r.1, r.2)
    else ([], c :: s)

/-- Case-insensitively strip the word `w` from the front of `s`. -/
def dropNameCI : List Char → List Char → Option (List Char)
  | [], s => some s
  | _ :: _, [] => none
  | a :: as, b :: bs => if a.toLower == b.toLower then dropNameCI as bs else none

/-- First candidate name that heads `s` (CPython orders alternations longest
first, so full names are listed before their abbreviations). -/
def matchFirst (cands : List (String × Nat)) (s : List Char) :
    Option (Nat × List Char) :=
  match cands with
  | [] => none
  | (w, v) :: rest =>
    match dropNameCI w.data s with
    | some rest2 => some (v, rest2)
    | none => matchFirst rest s

/-- Weekday names accepted by `%a` (values unused by the parse result). -/
def weekdayNames : List (String × Nat) :=
  [("monday", 0), ("tuesday", 1), ("wednesday", 2), ("thursday", 3),
   ("friday", 4), ("saturday", 5), ("sunday", 6),
   ("mon", 0), ("tue", 1), ("wed", 2), ("thu", 3), ("fri", 4), ("sat", 5), ("sun", 6)]

/-- Month abbreviations accepted by `%b`. -/
def monthAbbrevs : List (String × Nat) :=
  [("jan", 1), ("feb", 2), ("mar", 3), ("apr", 4), ("may", 5), ("jun", 6),
   ("jul", 7), ("aug", 8), ("sep", 9), ("oct", 10), ("nov", 11), ("dec", 12)]

/-- Timezone names accepted by `%Z` under a UTC process locale:
`UTC` and `GMT`, both mapping to offset 0. -/
def tzNames : List (String × Nat) := [("utc", 0), ("gmt", 0)]

/-- `%z`: a case-sensitive `Z`, or a sign, two hour digits, an optional
colon and two minute digits; the total offset must be under 24 hours
(the bound `datetime.timezone` enforces). -/
def parseOffset : List Char → Option (Int × List Char)
  | [] => none
  | c :: s =>
    if c == 'Z' then some (0, s)
    else if c == '+' || c == '-' then
      match s with
      | h1 :: h2 :: rest =>
        if h1.isDigit && h2.isDigit then
          let hh := (h1.toNat - 48) * 10 + (h2.toNat - 48)
          let rest2 := match rest with
            | ':' :: r => r
            | r => r
          match rest2 with
          | m1 :: m2 :: rest3 =>
            if m1.isDigit && m2.isDigit then
              let mm := (m1.toNat - 48) * 10 + (m2.toNat - 48)
              if hh * 60 + mm < 24 * 60 then
                some ((if c == '-' then -(hh * 60 + mm : Int) else (hh * 60 + mm : Int)), rest3)
              else none
            else none
          | _ => none
        else none
      | _ => none
    else none

/-- Interpreter for the strptime directives used by the format lists of this
repository (`%Y %m %d %H %M %S %f %a %b %Z %z`).  Numeric fields are taken
greedily with range validation afterwards, which coincides with the CPython
regexes on every format in those lists because each numeric field is
followed by a non-digit.  A literal matches case-insensitively; a
whitespace literal matches one or more input whitespace characters (none of
the formats here has two consecutive whitespace literals).  The whole input
must be consumed. -/
def runFmt : List Char → List Char → DateTime → Option DateTime
  | [], s, acc => if s.isEmpty then some acc else none
  | '%' :: 'Y' :: fmt, s, acc =>
    let r := takeDigits 4 s
    if r.1.length == 4 then runFmt fmt r.2 { acc with year := digitsVal r.1 } else none
  | '%' :: 'm' :: fmt, s, acc =>
    let r := takeDigits 2 s
    if r.1.length != 0 then runFmt fmt r.2 { acc with month := digitsVal r.1 } else none
  | '%' :: 'd' :: fmt, s, acc =>
    let r := takeDigits 2 s
    if r.1.length != 0 then runFmt fmt r.2 { acc with day := digitsVal r.1 } else none
  | '%' :: 'H' :: fmt, s, acc =>
    let r := takeDigits 2 s
    if r.1.length != 0 then runFmt fmt r.2 { acc with hour := digitsVal r.1 } else none
  | '%' :: 'M' :: fmt, s, acc =>
    let r := takeDigits 2 s
    if r.1.length != 0 then runFmt fmt r.2 { acc with minute := digitsVal r.1 } else none
  | '%' :: 'S' :: fmt, s, acc =>
    let r := takeDigits 2 s
    if r.1.length != 0 then runFmt fmt r.2 { acc with second := digitsVal r.1 } else none
  | '%' :: 'f' :: fmt, s, acc =>
    let r := takeDigits 6 s
    if r.1.length != 0 then
      runFmt fmt r.2 { acc with usec := digitsVal r.1 * 10 ^ (6 - r.1.length) }
    else none
  | '%' :: 'a' :: fmt, s, acc =>
    match matchFirst weekdayNames s with
    | some (_, s2) => runFmt fmt s2 acc
    | none => none
  | '%' :: 'b' :: fmt, s, acc =>
    match matchFirst monthAbbrevs s with
    | some (v, s2) => runFmt fmt s2 { acc with month := v }
    | none => none
  | '%' :: 'Z' :: fmt, s, acc =>
    match matchFirst tzNames s with
    | some (_, s2) => runFmt fmt s2 { acc with tzmin := some 0 }
    | none => none
  | '%' :: 'z' :: fmt, s, acc =>
    match parseOffset s with
    | some (off, s2) => runFmt fmt s2 { acc with tzmin := some off }
    | none => none
  | c :: fmt, s, acc =>
    if c.isWhitespace then
      match s with
      | [] => none
      | d :: s2 =>
        if d.isWhitespace then runFmt fmt (s2.dropWhile Char.isWhitespace) acc else none
    else
      match s with
      | [] => none
      | d :: s2 => if c.toLower == d.toLower then runFmt fmt s2 acc else none

/-- Year of the Gregorian leap rule. -/
def isLeap (y : Nat) : Bool :=
  (y % 4 == 0 && y % 100 != 0) || y % 400 == 0

def daysInMonth (y m : Nat) : Nat :=
  if m == 2 then (if isLeap y then 29 else 28)
  else if m == 4 || m == 6 || m == 9 || m == 11 then 30
  else 31

/-- The range checks the `datetime` constructor performs after the regex
match. -/
def validateDT (p : DateTime) : Option DateTime :=
  if 1 ≤ p.year && p.year ≤ 9999 && 1 ≤ p.month && p.month ≤ 12
      && 1 ≤ p.day && p.day ≤ daysInMonth p.year p.month
      && p.hour ≤ 23 && p.minute ≤ 59 && p.second ≤ 59 && p.usec ≤ 999999
  then some p else none

/-- `datetime.strptime(date_str, format)`, as `Option`:
`none` models the `ValueError` both loops catch. -/
def strptime (date_str format : String) : Option DateTime :=
  (runFmt format.data date_str.data pd0).bind validateDT

/-- The format list of `DataProcessor._parse_date`. -/
def dpFormats : List String :=
  ["%Y-%m-%d %H:%M:%S",
   "%Y-%m-%dT%H:%M:%SZ",
   "%Y-%m-%dT%H:%M:%S.%fZ",
   "%Y-%m-%d",
   "%a, %d %b %Y %H:%M:%S %Z",
   "%a, %d %b %Y %H:%M:%S %z"]

/-- The format list of `GoogleNewsClient._parse_date`. -/
def gnFormats : List String :=
  ["%a, %d %b %Y %H:%M:%S %Z",
   "%a, %d %b %Y %H:%M:%S %z",
   "%Y-%m-%dT%H:%M:%SZ",
   "%Y-%m-%d %H:%M:%S"]

/-- The shared try-each-format loop: first format that parses wins, all
failing falls back to `now` (`datetime.utcnow()`). -/
def tryFormats (now : DateTime) : List String → String → DateTime
  | [], _ => now
  | fmt :: rest, s =>
    match strptime s fmt with
    | some d => d
    | none => tryFormats now rest s

/-- `DataProcessor._parse_date(date_str)`.  The input is the optional string
`article.get(..)` produced; `None` and the empty string are falsy and return
`now`.  (The `isinstance(date_str, datetime)` passthrough branch is for
already-parsed values and never receives a string, so it needs no case
here.) -/
def dpParseDate (now : DateTime) (date_str : Option String) : DateTime :=
  match date_str with
  | none => now
  | some s => if s = "" then now else tryFormats now dpFormats s

/-- `GoogleNewsClient._parse_date(date_str)`. -/
def gnParseDate (now : DateTime) (date_str : Option String) : DateTime :=
  match date_str with
  | none => now
  | some s => if s = "" then now else tryFormats now gnFormats s

/-! ### String helpers shared by the normalizer and the relevance gate -/

/-- Does `needle` head `hay`? -/
def startsWithL : List Char → List Char → Bool
  | [], _ => true
  | _ :: _, [] => false
  | a :: as, b :: bs => a == b && startsWithL as bs

/-- Does `needle` occur contiguously in `hay`? -/
def containsL (needle : List Char) : List Char → Bool
  | [] => startsWithL needle []
  | b :: bs => startsWithL needle (b :: bs) || containsL needle bs

/-- Python `needle in hay` on strings. -/
def substrOf (needle hay : String) : Bool :=
  containsL needle.data hay.data

/-- Python `s.lower()` for the ASCII texts this pipeline handles
(`Char.toLower` lowers exactly the ASCII uppercase range). -/
def pyLower (s : String) : String :=
  String.mk (s.data.map Char.toLower)

/-- Split on whitespace runs, accumulating the current word reversed. -/
def splitWsAux : List Char → List Char → List String
  | [], acc => if acc.isEmpty then [] else [String.mk acc.reverse]
  | c :: cs, acc =>
    if c.isWhitespace then
      if acc.isEmpty then splitWsAux cs []
      else String.mk acc.reverse :: splitWsAux cs []
    else splitWsAux cs (c :: acc)

/-- Python `s.split()`: split on whitespace runs, no empty parts. -/
def pySplitWs (s : String) : List String :=
  splitWsAux s.data []

/-- Case-sensitively strip `pat` from the front. -/
def dropExact : List Char → List Char → Option (List Char)
  | [], s => some s
  | _ :: _, [] => none
  | a :: as, b :: bs => if a == b then dropExact as bs else none

/-- Replace every (leftmost, non-overlapping) occurrence of `pat` by
`subst`, as Python `str.replace` does for the non-empty patterns used
here. -/
def replaceAux (pat subst : List Char) : List Char → List Char
  | [] => []
  | c :: cs =>
    if startsWithL pat (c :: cs) then
      subst ++ replaceAux pat subst (cs.drop (pat.length - 1))
    else c :: replaceAux pat subst cs
termination_by s => s.length
decreasing_by
  · simp only [List.length_cons, List.length_drop]
    omega
  · simp

/-- Python `s.replace(pat, subst)`. -/
def pyReplace (s pat subst : String) : String :=
  String.mk (replaceAux pat.data subst.data s.data)

/-- Python `s[:n]` (truncation by characters). -/
def pyTake (s : String) (n : Nat) : String :=
  String.mk (s.data.take n)

/-- Python `x or y` where `x` is an optional string and `y` a string:
`None` and the empty string are falsy. -/
def pyOrD (x : Option String) (y : String) : String :=
  match x with
  | some s => if s == "" then y else s
  | none => y

/-- Python `s.capitalize()`: first character upper, the rest lowered. -/
def pyCapitalize (s : String) : String :=
  match s.data with
  | [] => ""
  | c :: cs => String.mk (c.toUpper :: cs.map Char.toLower)

/-- Stand-in for `hashlib.md5(x.encode()).hexdigest()`: a deterministic
injective function of the input string.  No claim in this file depends on
the digest text, only on identity being a pure function of the hashed
string. -/
def md5hex (s : String) : String := "md5:" ++ s

/-! ### Category table and `_categorize_text` -/

/-- `CATEGORY_KEYWORDS` of `data_processor.py`, in dict insertion order. -/
def CATEGORY_KEYWORDS : List (String × List String) :=
  [("Politics", ["election", "parliament", "bjp", "congress", "party", "vote", "campaign",
                 "political", "minister", "opposition", "lok sabha", "rajya sabha"]),
   ("Governance", ["policy", "scheme", "government", "cabinet", "ordinance", "bill", "reform",
                   "administration", "governance", "ministry"]),
   ("Economy", ["gdp", "economy", "budget", "tax", "finance", "trade", "investment", "fiscal",
                "inflation", "rbi", "market"]),
   ("Infrastructure", ["road", "highway", "bridge", "railway", "metro", "airport", "port",
                       "construction", "inaugurate", "project", "smart city"]),
   ("Diplomacy", ["summit", "bilateral", "foreign", "ambassador", "diplomatic", "treaty",
                  "g20", "un", "nato", "brics", "quad"]),
   ("Defence", ["army", "navy", "airforce", "military", "defence", "defense", "weapon",
                "border", "security", "soldier"]),
   ("Technology", ["digital", "tech", "startup", "innovation", "ai", "cyber", "space",
                   "isro", "satellite", "internet"]),
   ("Social", ["education", "health", "hospital", "school", "university", "poverty",
               "welfare", "women", "farmer", "rural"]),
   ("Event", ["rally", "speech", "conference", "visit", "inauguration", "ceremony",
              "meeting", "address", "function"])]

/-- The `for category, keywords in CATEGORY_KEYWORDS.items()` loop:
return the first category with a keyword occurring in the lowered text. -/
def scanCategories (table : List (String × List String)) (text_lower : String) : String :=
  match table with
  | [] => "Other"
  | (category, keywords) :: rest =>
    if keywords.any (fun kw => substrOf kw text_lower) then category
    else scanCategories rest text_lower

/-- `DataProcessor._categorize_text(text)`. -/
def categorizeText (text : String) : String :=
  if text = "" then "Other"
  else scanCategories CATEGORY_KEYWORDS (pyLower text)

/-- Restatement of the SPEC wording (not of the code): scan the title
case-insensitively against the ordered category table, the first category
whose keyword list has a match wins, no match yields `"Other"`. -/
def categorizeSpec (text : String) : String :=
  if text = "" then "Other"
  else
    match CATEGORY_KEYWORDS.find?
        (fun ck => ck.2.any (fun kw => substrOf kw (pyLower text))) with
    | some ck => ck.1
    | none => "Other"

/-! ### Relevance gate (`EntityRecognizer.verify_person`) -/

/-- One spaCy entity: surface text and label. -/
structure Entity where
  text : String
  label : String
deriving DecidableEq, Repr

/-- `EntityRecognizer.verify_person(text, person_name)`.  The spaCy pipeline
`self.nlp` is an external model, taken as the function `nlp` from a text to
its extracted entities.  Empty text is falsy and rejected before any
extraction; otherwise accept iff some entity labeled `PERSON` contains
(case-insensitively) a whitespace-delimited part of the lowered person name
longer than 2 characters. -/
def verify_person (nlp : String → List Entity) (text person_name : String) : Bool :=
  if text = "" then false
  else
    let target_parts := pySplitWs (pyLower person_name)
    (nlp text).any (fun ent =>
      ent.label == "PERSON" &&
        (target_parts.filter (fun part => part.length > 2)).any
          (fun part => substrOf part (pyLower ent.text)))

/-! ### Normalizer (`DataProcessor._process_single_article` et al.) -/

/-- The `source` field of a raw item: V3 may send a dict or a string. -/
inductive SourceField where
  | strSource (s : String)
  | objSource (domain : Option String) (sname : Option String)
deriving DecidableEq, Repr

/-- A raw item as handed to the processor (feed entry or API article dict);
absent keys are `none`. -/
structure RawArticle where
  title : Option String
  summary : Option String
  description : Option String
  excerpt : Option String
  link : Option String
  published_date : Option String
  language : Option String
  sentiment_score : Option Int
  source : Option SourceField
  clean_url : Option String
  rights : Option String
deriving DecidableEq, Repr

/-- The raw item with every key absent. -/
def rawEmpty : RawArticle :=
  { title := none, summary := none, description := none, excerpt := none,
    link := none, published_date := none, language := none,
    sentiment_score := none, source := none, clean_url := none, rights := none }

/-- Fallback tail of `_extract_source`: cleaned `clean_url`/`rights` host
string or `"Unknown"`. -/
def extractSourceFallback (article : RawArticle) : String :=
  let source_str := pyOrD article.clean_url (pyOrD article.rights "")
  if source_str ≠ "" then
    pyCapitalize (pyReplace (pyReplace (pyReplace source_str "www." "") ".com" "") ".in" "")
  else "Unknown"

/-- `DataProcessor._extract_source(article)`. -/
def extractSource (article : RawArticle) : String :=
  match article.source with
  | some (.objSource domain sname) => pyOrD domain (pyOrD sname "Unknown")
  | some (.strSource s) => if s ≠ "" then s else extractSourceFallback article
  | none => extractSourceFallback article

/-- The dict literal `_process_single_article` returns (a canonical
Article before storage). -/
structure ProcArticle where
  id : String
  title : String
  content : String
  source_name : String
  url : String
  published_date : DateTime
  person_tracked : String
  language : String
  sentiment_score : Int
  category : String
  data_source : String
deriving DecidableEq, Repr

/-- Python `d.get(key, dflt)` on the dict `_process_single_article` built,
for the string-valued keys (the `published_date` and `sentiment_score` keys
hold non-string values and are never read through a string lookup; there is
no `summary` key on this dict). -/
def ProcArticle.getStr (a : ProcArticle) (key dflt : String) : String :=
  if key == "id" then a.id
  else if key == "title" then a.title
  else if key == "content" then a.content
  else if key == "source_name" then a.source_name
  else if key == "url" then a.url
  else if key == "person_tracked" then a.person_tracked
  else if key == "language" then a.language
  else if key == "category" then a.category
  else if key == "data_source" then a.data_source
  else dflt

/-- `DataProcessor._process_single_article(article, person_name, data_source)`:
relevance-gate on title plus summary/description, reject missing links,
hash the link into the id, truncate title and body, parse the date,
categorize the title. -/
def processSingleArticle (nlp : String → List Entity) (now : DateTime)
    (article : RawArticle) (person_name : String) (data_source : String) :
    Option ProcArticle :=
  let text_to_check :=
    (article.title.getD "") ++ " " ++ pyOrD article.summary (article.description.getD "")
  if !(verify_person nlp text_to_check person_name) then none
  else
    let url := article.link.getD ""
    if url = "" then none
    else some
      { id := md5hex url
        title := pyTake (article.title.getD "") 500
        content :=
          pyTake (pyOrD article.summary (pyOrD article.description (pyOrD article.excerpt ""))) 5000
        source_name := extractSource article
        url := url
        published_date := dpParseDate now article.published_date
        person_tracked := person_name
        language := article.language.getD "unknown"
        sentiment_score := article.sentiment_score.getD 0
        category := categorizeText (article.title.getD "")
        data_source := data_source }

/-! ### Semantic clusterer (`VectorProcessor.cluster_articles`) -/

/-- The text `cluster_articles` prepares for embedding for one article:
`f-string` of `art.get('title', '')` and `art.get('summary', '')`. -/
def clusterText (art : ProcArticle) : String :=
  art.getStr "title" "" ++ " " ++ art.getStr "summary" ""

/-- Group the articles by their cluster label, label groups in order of
first appearance (Python dict insertion order, then `.values()`). -/
def groupByLabel {α : Type} (labels : List Nat) (xs : List α) : List (List α) :=
  labels.eraseDups.map (fun k =>
    (labels.zip xs).filterMap (fun p => if p.1 == k then some p.2 else none))

/-- `VectorProcessor.cluster_articles(articles, threshold)`.  The sentence
transformer, vector normalization and `AgglomerativeClustering.fit_predict`
(with the threshold baked in) form the external `labeler` from the prepared
texts to one label per text; its `none` models the caught `ValueError`
whose handler falls back to singletons.  A single-article batch is its own
cluster before any model call. -/
def cluster_articles (labeler : List String → Option (List Nat))
    (articles : List ProcArticle) : List (List ProcArticle) :=
  if articles.isEmpty then []
  else
    let texts := articles.map clusterText
    if articles.length == 1 then [articles]
    else
      match labeler texts with
      | none => articles.map (fun a => [a])
      | some labels => groupByLabel labels articles

/-- The `cluster_data` dict built by
`DataProcessor.process_google_articles_clustered` for one group. -/
structure GClusterData where
  id : String
  representative_title : String
  person_tracked : String
  category : String
  source_count : Nat
  first_published : DateTime
deriving DecidableEq, Repr

/-- One element of the result list of
`process_google_articles_clustered`. -/
structure GClusterResult where
  cluster_data : GClusterData
  articles_data : List ProcArticle
deriving DecidableEq, Repr

/-- `DataProcessor.process_google_articles_clustered(articles, person_name)`.
`vp` is `self.vp`: `none` when the `VectorProcessor` constructor raised and
clustering is disabled, otherwise the labeler oracle of
`cluster_articles`. -/
def processGoogleArticlesClustered (nlp : String → List Entity)
    (vp : Option (List String → Option (List Nat))) (now : DateTime)
    (articles : List RawArticle) (person_name : String) : List GClusterResult :=
  let clean_articles := articles.filterMap
    (fun art => processSingleArticle nlp now art person_name "google_rss")
  if clean_articles.isEmpty then []
  else
    let clusters :=
      match vp with
      | some labeler => cluster_articles labeler clean_articles
      | none => clean_articles.map (fun a => [a])
    clusters.filterMap (fun cluster_group =>
      match cluster_group with
      | [] => none
      | rep_art :: _ => some
        { cluster_data :=
            { id := md5hex (person_name ++ "_" ++ rep_art.title)
              representative_title := rep_art.title
              person_tracked := person_name
              category := rep_art.category
              source_count := cluster_group.length
              first_published := rep_art.published_date }
          articles_data := cluster_group })

/-! ### Clustering search API client (`NewsCatcherClient.search`) -/

/-- The mutable part of the request payload: the clustering flag and the
presence of the three keys the 403 handler pops. -/
structure Payload where
  clustering_enabled : Bool
  has_clustering_variable : Bool
  has_clustering_threshold : Bool
  has_nlp_data : Bool
deriving DecidableEq, Repr

/-- The payload as `search` builds it. -/
def initPayload (clustering : Bool) : Payload :=
  { clustering_enabled := clustering
    has_clustering_variable := true
    has_clustering_threshold := true
    has_nlp_data := true }

/-- The 403 handler: disable clustering and pop the three keys. -/
def stripClustering (p : Payload) : Payload :=
  { p with clustering_enabled := false
           has_clustering_variable := false
           has_clustering_threshold := false
           has_nlp_data := false }

/-- Parsed response body (`data.get('clusters', [])`, `data.get('articles',
[])`), items left opaque. -/
structure RespBody where
  clusters : List String
  articles : List String
deriving DecidableEq, Repr

/-- What one `requests.post` attempt produced: an HTTP status with
`Retry-After` header and parseable-or-not JSON body, or one of the
exception classes the loop distinguishes. -/
inductive HttpOutcome where
  | http (code : Nat) (retryAfter : Option Nat) (body : Option RespBody)
  | timeout
  | requestError
  | otherError
deriving DecidableEq, Repr

/-- The dict `search` returns on success. -/
structure SearchResult where
  clusters : List String
  articles : List String
  clustered : Bool
deriving DecidableEq, Repr

/-- The `for attempt in range(retry_count)` loop of `search`.  `env` is the
network: the outcome of the request at a given attempt index for a given
payload.  Returns the result (`none` models the final `return None`) paired
with the number of requests issued from this point on.  429 sleeps for the
`Retry-After` interval and retries; 401 returns `None` at once; 403 strips
clustering from the payload and retries; other error statuses raise through
`raise_for_status` into the `RequestException` handler which backs off and
retries; an unparseable body raises into the generic handler which breaks
out of the loop; timeouts and request exceptions back off and retry. -/
def searchLoop (env : Nat → Payload → HttpOutcome) (attempt : Nat) (p : Payload) :
    Nat → Option SearchResult × Nat
  | 0 => (none, 0)
  | fuel + 1 =>
    match env attempt p with
    | .http code _ body =>
      if code == 429 then
        let r := searchLoop env (attempt + 1) p fuel
        (r.1, r.2 + 1)
      else if code == 401 then (none, 1)
      else if code == 403 then
        let r := searchLoop env (attempt + 1) (stripClustering p) fuel
        (r.1, r.2 + 1)
      else if 400 ≤ code then
        let r := searchLoop env (attempt + 1) p fuel
        (r.1, r.2 + 1)
      else
        match body with
        | none => (none, 1)
        | some b =>
          if !b.clusters.isEmpty then (some ⟨b.clusters, b.articles, true⟩, 1)
          else if !b.articles.isEmpty then (some ⟨[], b.articles, false⟩, 1)
          else (some ⟨[], [], false⟩, 1)
    | .timeout =>
      let r := searchLoop env (attempt + 1) p fuel
      (r.1, r.2 + 1)
    | .requestError =>
      let r := searchLoop env (attempt + 1) p fuel
      (r.1, r.2 + 1)
    | .otherError => (none, 1)

/-- `NewsCatcherClient.search(query, retry_count, clustering)`: run the
attempt loop from attempt 0 with the initial payload. -/
def search (env : Nat → Payload → HttpOutcome) (retry_count : Nat)
    (clustering : Bool) : Option SearchResult × Nat :=
  searchLoop env 0 (initPayload clustering) retry_count

/-! ### Auxiliary definitions for the statements -/

/-- Overwrite every stored `source_count` column by an arbitrary function,
leaving everything else in place (used to state that the grouped read model
never reads that column). -/
def scrubCounts (f : NewsCluster → Int) (st : DBState) : DBState :=
  { st with clusters := st.clusters.map (fun c => { c with source_count := f c }) }

/-! ### Concrete fixtures for evaluations and witnesses -/

def fixClusterData : ClusterData :=
  ⟨"story-1", "Bridge opened", "Narendra Modi", "Other", 1, 0⟩

def fixArt1 : ArticleData :=
  ⟨"id1", "t1", "b1", "X News", "http://x.example/1", 0, "Narendra Modi", "en", 0,
   "Other", "google_rss"⟩

def fixArt2 : ArticleData :=
  ⟨"id2", "t2", "b2", "Y News", "http://y.example/2", 0, "Narendra Modi", "en", 0,
   "Other", "google_rss"⟩

/-- C3 fixture: a cluster past the 90-day horizon that still has a recently
collected article, next to a fresh cluster and an old standalone article. -/
def oldCluster : NewsCluster := ⟨"old", "Old story", "p", "Other", 1, -100, -100⟩

def freshCluster : NewsCluster := ⟨"new", "New story", "p", "Other", 1, 0, 0⟩

def oldArticle : NewsArticle :=
  ⟨"a-old", none, "told", "b", "s", "http://old.example", -100, -100, "p", "en", 0,
   "Other", "google_rss"⟩

def recentLinkedArticle : NewsArticle :=
  ⟨"a-new", some "old", "tnew", "b", "s", "http://new.example", 0, 0, "p", "en", 0,
   "Other", "google_rss"⟩

/-- NER oracle that always reports one PERSON entity. -/
def nlpAlwaysModi : String → List Entity := fun _ => [⟨"PM Modi", "PERSON"⟩]

/-- NER oracle for the relevance-gate witness: entities for one specific
text, nothing (in particular) for the empty text. -/
def nlpWitness : String → List Entity := fun t =>
  if t == "PM Modi addressed the nation." then [⟨"PM Modi", "PERSON"⟩] else []

/-- C4 fixture: a feed item with distinct title and body. -/
def rawBridge : RawArticle :=
  { rawEmpty with
      title := some "PM Modi opens bridge"
      summary := some "Prime Minister Narendra Modi was present."
      link := some "http://e.example/1" }

/-- Network oracle that answers 401 to every request. -/
def envAll401 : Nat → Payload → HttpOutcome := fun _ _ => .http 401 none none

/-- C2 witness state: one stored article, collected at time 0. -/
def oneArticleDB : DBState := ⟨[], [mkArticle 0 fixArt1 none]⟩

/-- The canonical Article the normalizer produces from `rawBridge`. -/
def procBridge : ProcArticle :=
  ⟨"md5:http://e.example/1", "PM Modi opens bridge",
   "Prime Minister Narendra Modi was present.", "Unknown", "http://e.example/1",
   pd0, "Narendra Modi", "unknown", 0, "Infrastructure", "google_rss"⟩

/-- The singleton cluster result the degraded pipeline builds from
`rawBridge`. -/
def gBridgeResult : GClusterResult :=
  { cluster_data :=
      { id := "md5:Narendra Modi_PM Modi opens bridge"
        representative_title := "PM Modi opens bridge"
        person_tracked := "Narendra Modi"
        category := "Infrastructure"
        source_count := 1
        first_published := pd0 }
    articles_data := [procBridge] }

/-! ## Theorems -/

/-- C1: FALSE on the code.  The claim states that after each `add_cluster`
call the stored `source_count` equals the number of distinct article URLs
linked to the cluster and never exceeds the number of articles submitted.
Two calls sharing the identity `story-1`, each submitting one fresh
article, leave `source_count = 3` although only 2 distinct URLs are linked
(and only 2 articles were submitted): the merge branch adds the freshly
inserted rows into `len(existing.articles)` (the lazy load autoflushes
them) and then adds `new_count` again. -/
theorem C1_merge_double_counts_source_count :
    (sourceCountOf ((add_cluster 1 fixClusterData [fixArt2]
        ((add_cluster 0 fixClusterData [fixArt1] emptyDB).2)).2) "story-1" = some 3) ∧
    linkedCount ((add_cluster 1 fixClusterData [fixArt2]
        ((add_cluster 0 fixClusterData [fixArt1] emptyDB).2)).2).articles "story-1" = 2 ∧
    ((add_cluster 1 fixClusterData [fixArt2]
        ((add_cluster 0 fixClusterData [fixArt1] emptyDB).2)).2).articles.length = 2 := by
  decide

/-- C3: FALSE on the code.  `cleanup_old_data(90)` at time 0 on a state with
an over-horizon cluster `old` (created −100) holding a recently collected
article, a fresh cluster `new`, and an over-horizon standalone article:
the old article and the old cluster are deleted and the fresh rows kept
(the parts of the claim that hold), but the recently collected article of
the deleted cluster survives with a dangling cluster reference — the bulk
`query.delete()` never runs the ORM cascade, contradicting the claim (and
the cascade announced by the model and the in-code comment). -/
theorem C3_cleanup_leaves_articles_of_deleted_cluster :
    (cleanup_old_data 0 90
      ⟨[oldCluster, freshCluster], [oldArticle, recentLinkedArticle]⟩).2 =
        ⟨[freshCluster], [recentLinkedArticle]⟩ ∧
    recentLinkedArticle.cluster_id = some oldCluster.id ∧
    findClusterById (cleanup_old_data 0 90
      ⟨[oldCluster, freshCluster], [oldArticle, recentLinkedArticle]⟩).2.clusters
      oldCluster.id = none := by
  decide

set_option maxRecDepth 100000 in
/-- C4: FALSE on the code.  The text prepared for embedding is
`art.get('title', '') + " " + art.get('summary', '')`, but the processed
article dicts store the body under `content` and carry no `summary` key, so
the embedded text is the title plus a trailing space for EVERY processed
article; on a concrete feed item with a non-empty body the embedded text
drops the body. -/
theorem C4_embedding_text_is_title_only :
    (∀ p : ProcArticle, clusterText p = p.title ++ " ") ∧
    ((processSingleArticle nlpAlwaysModi pd0 rawBridge "Narendra Modi" "google_rss").map
        clusterText = some "PM Modi opens bridge ") ∧
    ((processSingleArticle nlpAlwaysModi pd0 rawBridge "Narendra Modi" "google_rss").map
        (fun p => p.title ++ " " ++ p.content) =
      some "PM Modi opens bridge Prime Minister Narendra Modi was present.") ∧
    ("PM Modi opens bridge " : String) ≠
      "PM Modi opens bridge Prime Minister Narendra Modi was present." := by
  refine ⟨fun p => ?_, rfl, rfl, by decide⟩
  simp [clusterText, ProcArticle.getStr]

/-- C5: the relevance gate accepts exactly when some extracted entity
labeled `PERSON` contains, case-insensitively, a whitespace-delimited part
of the tracked display name longer than 2 characters; non-person labels
never cause acceptance.  The hypothesis records that the extraction of the
empty text yields no entities (the gate rejects empty text before calling
the model, and spaCy extracts nothing from it). -/
theorem C5_verify_person_characterization :
    ∀ (nlp : String → List Entity) (text person_name : String),
      nlp "" = [] →
      (verify_person nlp text person_name = true ↔
        ∃ ent ∈ nlp text, ent.label = "PERSON" ∧
          ∃ part ∈ pySplitWs (pyLower person_name),
            part.length > 2 ∧ substrOf part (pyLower ent.text) = true) := by
  intro nlp text person_name h
  by_cases ht : text = ""
  · subst ht
    simp [verify_person, h]
  · rw [verify_person, if_neg ht]
    simp only [List.any_eq_true, Bool.and_eq_true, beq_iff_eq, List.mem_filter,
      decide_eq_true_iff]
    constructor
    · rintro ⟨ent, hent, hlabel, part, ⟨hmem, hlen⟩, hsub⟩
      exact ⟨ent, hent, hlabel, part, hmem, hlen, hsub⟩
    · rintro ⟨ent, hent, hlabel, part, hmem, hlen, hsub⟩
      exact ⟨ent, hent, hlabel, part, ⟨hmem, hlen⟩, hsub⟩

/-- Witness for C5 at a concrete extraction oracle, text and name. -/
theorem C5_verify_person_characterization_witness :
    verify_person nlpWitness "PM Modi addressed the nation." "Narendra Modi" = true ↔
      ∃ ent ∈ nlpWitness "PM Modi addressed the nation.", ent.label = "PERSON" ∧
        ∃ part ∈ pySplitWs (pyLower "Narendra Modi"),
          part.length > 2 ∧ substrOf part (pyLower ent.text) = true :=
  C5_verify_person_characterization nlpWitness "PM Modi addressed the nation."
    "Narendra Modi" rfl

/-- `scanCategories` is the first-match lookup over the ordered table. -/
lemma scanCategories_eq_find? (table : List (String × List String)) (tl : String) :
    scanCategories table tl =
      match table.find? (fun ck => ck.2.any (fun kw => substrOf kw tl)) with
      | some ck => ck.1
      | none => "Other" := by
  induction table with
  | nil => rfl
  | cons hd rest ih =>
    by_cases h : (hd.2.any (fun kw => substrOf kw tl)) = true
    · simp [scanCategories, List.find?_cons_of_pos, h]
    · rw [scanCategories, if_neg h, List.find?_cons_of_neg _ (by simpa using h), ih]

/-- C6: category assignment is a pure function of the title and the keyword
table: it equals the spec-side first-match scan of the ordered table
(case-insensitive, `"Other"` on no match), identical titles yield identical
categories, and when no keyword of any category occurs the result is
`"Other"`. -/
theorem C6_categorize_pure_first_match :
    ∀ text : String,
      categorizeText text = categorizeSpec text ∧
      (∀ text2 : String, text = text2 → categorizeText text = categorizeText text2) ∧
      ((∀ ck ∈ CATEGORY_KEYWORDS, ∀ kw ∈ ck.2, substrOf kw (pyLower text) = false) →
        categorizeText text = "Other") := by
  intro text
  refine ⟨?_, fun text2 hx => hx ▸ rfl, ?_⟩
  · by_cases h : text = ""
    · simp [categorizeText, categorizeSpec, h]
    · rw [categorizeText, categorizeSpec, if_neg h, if_neg h]
      exact scanCategories_eq_find? _ _
  · intro hall
    by_cases h : text = ""
    · simp [categorizeText, h]
    · rw [categorizeText, if_neg h, scanCategories_eq_find?]
      have hnone : CATEGORY_KEYWORDS.find?
          (fun ck => ck.2.any (fun kw => substrOf kw (pyLower text))) = none := by
        rw [List.find?_eq_none]
        intro ck hck
        simp only [List.any_eq_true, not_exists]
        rintro kw ⟨hkw, hsub⟩
        simp [hall ck hck kw hkw] at hsub
      rw [hnone]

/-- Witness for C6 at a concrete title with no keyword occurrence, each
inner hypothesis discharged. -/
theorem C6_categorize_pure_first_match_witness :
    categorizeText "zzz" = categorizeSpec "zzz" ∧
    categorizeText "zzz" = categorizeText "zzz" ∧
    categorizeText "zzz" = "Other" :=
  ⟨(C6_categorize_pure_first_match "zzz").1,
   (C6_categorize_pure_first_match "zzz").2.1 "zzz" rfl,
   (C6_categorize_pure_first_match "zzz").2.2 (by decide)⟩

/-- If every format fails, the try-each-format loop returns `now`. -/
lemma tryFormats_eq_now (now : DateTime) (s : String) :
    ∀ fmts : List String, (∀ fmt ∈ fmts, strptime s fmt = none) →
      tryFormats now fmts s = now := by
  intro fmts
  induction fmts with
  | nil => intro _; rfl
  | cons f rest ih =>
    intro h
    rw [tryFormats, h f (by simp)]
    exact ih (fun g hg => h g (by simp [hg]))

/-- C7: both date parsers try their ordered format lists: the supported
literal examples parse to the corresponding timestamps (ISO `Z` form naive;
RFC-822 `GMT` form aware at offset 0), any input on which every format of
the respective list fails falls back to the current collection time instead
of erroring, and falsy input (absent or empty) also yields `now`. -/
theorem C7_date_parsing :
    ∀ now : DateTime,
      dpParseDate now (some "2025-01-01T10:00:00Z") =
        ⟨2025, 1, 1, 10, 0, 0, 0, none⟩ ∧
      dpParseDate now (some "Mon, 06 Feb 2025 12:00:00 GMT") =
        ⟨2025, 2, 6, 12, 0, 0, 0, some 0⟩ ∧
      gnParseDate now (some "2025-01-01T10:00:00Z") =
        ⟨2025, 1, 1, 10, 0, 0, 0, none⟩ ∧
      gnParseDate now (some "Mon, 06 Feb 2025 12:00:00 GMT") =
        ⟨2025, 2, 6, 12, 0, 0, 0, some 0⟩ ∧
      (∀ s : String, (∀ fmt ∈ dpFormats, strptime s fmt = none) →
        dpParseDate now (some s) = now) ∧
      (∀ s : String, (∀ fmt ∈ gnFormats, strptime s fmt = none) →
        gnParseDate now (some s) = now) ∧
      dpParseDate now none = now ∧ dpParseDate now (some "") = now ∧
      gnParseDate now none = now ∧ gnParseDate now (some "") = now := by
  intro now
  refine ⟨rfl, rfl, rfl, rfl, ?_, ?_, rfl, rfl, rfl, rfl⟩
  · intro s hs
    by_cases h : s = ""
    · simp [dpParseDate, h]
    · simp only [dpParseDate]
      rw [if_neg h]
      exact tryFormats_eq_now now s dpFormats hs
  · intro s hs
    by_cases h : s = ""
    · simp [gnParseDate, h]
    · simp only [gnParseDate]
      rw [if_neg h]
      exact tryFormats_eq_now now s gnFormats hs

/-- Witness for C7: the fallback conjuncts applied to a concrete
unparseable input. -/
theorem C7_date_parsing_witness :
    dpParseDate pd0 (some "not a date") = pd0 ∧
    gnParseDate pd0 (some "not a date") = pd0 :=
  ⟨(C7_date_parsing pd0).2.2.2.2.1 "not a date" (by decide),
   (C7_date_parsing pd0).2.2.2.2.2.1 "not a date" (by decide)⟩

/-- A URL lookup succeeds exactly when some stored row has that URL. -/
lemma findArticleByUrl_isSome_iff (arts : List NewsArticle) (u : String) :
    (findArticleByUrl arts u).isSome = true ↔ ∃ a ∈ arts, a.url = u := by
  simp [findArticleByUrl, List.find?_isSome, beq_iff_eq]

/-- The insertion loop preserves distinctness of the stored URLs. -/
lemma insertArticles_urls_nodup (now : Time) (cid : Option String) :
    ∀ (ads : List ArticleData) (arts : List NewsArticle),
      (arts.map (fun a => a.url)).Nodup →
      ((insertArticles now cid arts ads).1.map (fun a => a.url)).Nodup := by
  intro ads
  induction ads with
  | nil => intro arts h; simpa [insertArticles] using h
  | cons d rest ih =>
    intro arts h
    by_cases hf : (findArticleByUrl arts d.url).isSome = true
    · simpa [insertArticles, hf] using ih arts h
    · have hnot : ∀ a ∈ arts, a.url ≠ d.url := by
        intro a ha heq
        exact hf ((findArticleByUrl_isSome_iff arts d.url).mpr ⟨a, ha, heq⟩)
      simp only [insertArticles, hf, if_false]
      apply ih
      rw [List.map_append]
      refine List.Nodup.append h (by simp) ?_
      intro u hu hu2
      simp only [List.map_cons, List.map_nil, List.mem_singleton] at hu2
      obtain ⟨a, ha, rfl⟩ := List.mem_map.mp hu
      exact hnot a ha (hu2.trans rfl)

/-- Every mutating database operation preserves URL distinctness. -/
lemma applyOp_urls_nodup (st : DBState) (op : DBOp)
    (h : (st.articles.map (fun a => a.url)).Nodup) :
    ((applyOp st op).articles.map (fun a => a.url)).Nodup := by
  cases op with
  | addCluster now cd ads =>
    simp only [applyOp, add_cluster]
    cases hf : findClusterById st.clusters cd.id with
    | some existing => exact insertArticles_urls_nodup now (some existing.id) ads st.articles h
    | none => exact insertArticles_urls_nodup now (some cd.id) ads st.articles h
  | addUnclustered now d =>
    simp only [applyOp, add_unclustered_article]
    by_cases hf : (findArticleByUrl st.articles d.url).isSome = true
    · simpa [hf] using h
    · have hnot : ∀ a ∈ st.articles, a.url ≠ d.url := by
        intro a ha heq
        exact hf ((findArticleByUrl_isSome_iff st.articles d.url).mpr ⟨a, ha, heq⟩)
      simp only [hf, Bool.false_eq_true, if_false]
      rw [List.map_append]
      refine List.Nodup.append h (by simp) ?_
      intro u hu hu2
      simp only [List.map_cons, List.map_nil, List.mem_singleton] at hu2
      obtain ⟨a, ha, rfl⟩ := List.mem_map.mp hu
      exact hnot a ha (hu2.trans rfl)
  | bulkAdd now ads =>
    exact insertArticles_urls_nodup now none ads st.articles h
  | cleanup now days =>
    simp only [applyOp, cleanup_old_data]
    exact List.Nodup.sublist (List.Sublist.map _ (List.filter_sublist _)) h

/-- A sequence of database operations preserves URL distinctness. -/
lemma applyOps_urls_nodup (ops : List DBOp) :
    ∀ st : DBState, (st.articles.map (fun a => a.url)).Nodup →
      ((applyOps st ops).articles.map (fun a => a.url)).Nodup := by
  induction ops with
  | nil => intro st h; simpa [applyOps] using h
  | cons op rest ih => intro st h; exact ih _ (applyOp_urls_nodup st op h)

/-- C2: re-ingesting a raw item whose URL is already stored is a no-op on
the article table: the standalone entry point returns `False` and leaves
the state unchanged, `add_cluster` counts 0 newly persisted articles and
leaves the article rows unchanged, and every operation sequence preserves
the distinctness of stored URLs (so a URL never yields two stored
article rows). -/
theorem C2_same_url_second_ingestion_noop :
    ∀ (st : DBState) (now : Time) (d : ArticleData) (cd : ClusterData),
      urlStored st.articles d.url = true →
      ((add_unclustered_article now d st).1 = false ∧
        (add_unclustered_article now d st).2 = st) ∧
      ((add_cluster now cd [d] st).1 = 0 ∧
        (add_cluster now cd [d] st).2.articles = st.articles) ∧
      (∀ ops : List DBOp, (st.articles.map (fun a => a.url)).Nodup →
        ((applyOps st ops).articles.map (fun a => a.url)).Nodup) := by
  intro st now d cd h
  rw [urlStored] at h
  have hins : ∀ cid : Option String,
      insertArticles now cid st.articles [d] = (st.articles, 0) := by
    intro cid
    simp [insertArticles, h]
  refine ⟨⟨?_, ?_⟩, ⟨?_, ?_⟩, fun ops => applyOps_urls_nodup ops st⟩
  · simp [add_unclustered_article, h]
  · simp [add_unclustered_article, h]
  · cases hf : findClusterById st.clusters cd.id with
    | some existing => simp [add_cluster, hf, hins]
    | none => simp [add_cluster, hf, hins]
  · cases hf : findClusterById st.clusters cd.id with
    | some existing => simp [add_cluster, hf, hins]
    | none => simp [add_cluster, hf, hins]

/-- Witness for C2 at a one-article store and the same article again; the
invariant part is discharged on a concrete operation sequence. -/
theorem C2_same_url_second_ingestion_noop_witness :
    ((add_unclustered_article 1 fixArt1 oneArticleDB).1 = false ∧
      (add_unclustered_article 1 fixArt1 oneArticleDB).2 = oneArticleDB) ∧
    ((add_cluster 1 fixClusterData [fixArt1] oneArticleDB).1 = 0 ∧
      (add_cluster 1 fixClusterData [fixArt1] oneArticleDB).2.articles =
        oneArticleDB.articles) ∧
    ((applyOps oneArticleDB [DBOp.addUnclustered 2 fixArt2]).articles.map
      (fun a => a.url)).Nodup :=
  ⟨(C2_same_url_second_ingestion_noop oneArticleDB 1 fixArt1 fixClusterData
      (by decide)).1,
   (C2_same_url_second_ingestion_noop oneArticleDB 1 fixArt1 fixClusterData
      (by decide)).2.1,
   (C2_same_url_second_ingestion_noop oneArticleDB 1 fixArt1 fixClusterData
      (by decide)).2.2 [DBOp.addUnclustered 2 fixArt2] (by decide)⟩

/-- Mapping each element to its singleton then filter-mapping a function
defined on singletons is mapping the composite. -/
lemma filterMap_map_singleton {α β : Type} (f : List α → Option β) (g : α → β)
    (hf : ∀ a, f [a] = some (g a)) (l : List α) :
    (l.map (fun a => [a])).filterMap f = l.map g := by
  induction l with
  | nil => rfl
  | cons a l ih => simp [List.filterMap_cons, hf, ih]

/-- C8: when the embedding model failed to construct (`self.vp is None`),
processing a feed batch still succeeds and yields one singleton cluster per
accepted article: the number of results equals the number of articles the
gate and the normalizer accepted, and every result carries exactly one
article. -/
theorem C8_no_model_singleton_clusters :
    ∀ (nlp : String → List Entity) (now : DateTime) (articles : List RawArticle)
      (person_name : String),
      (processGoogleArticlesClustered nlp none now articles person_name).length =
        (articles.filterMap
          (fun art => processSingleArticle nlp now art person_name "google_rss")).length ∧
      ∀ r ∈ processGoogleArticlesClustered nlp none now articles person_name,
        r.articles_data.length = 1 := by
  intro nlp now articles person_name
  have hres : processGoogleArticlesClustered nlp none now articles person_name =
      (articles.filterMap
        (fun art => processSingleArticle nlp now art person_name "google_rss")).map
        (fun rep_art =>
          ({ cluster_data :=
              { id := md5hex (person_name ++ "_" ++ rep_art.title)
                representative_title := rep_art.title
                person_tracked := person_name
                category := rep_art.category
                source_count := 1
                first_published := rep_art.published_date }
             articles_data := [rep_art] } : GClusterResult)) := by
    rw [processGoogleArticlesClustered]
    by_cases h : (articles.filterMap
        (fun art => processSingleArticle nlp now art person_name "google_rss")).isEmpty
    · rw [if_pos h]
      rw [List.isEmpty_iff] at h
      rw [h]
      rfl
    · rw [if_neg h]
      exact filterMap_map_singleton
        (fun cluster_group =>
          match cluster_group with
          | [] => none
          | rep_art :: _ => some
            ({ cluster_data :=
                { id := md5hex (person_name ++ "_" ++ rep_art.title)
                  representative_title := rep_art.title
                  person_tracked := person_name
                  category := rep_art.category
                  source_count := cluster_group.length
                  first_published := rep_art.published_date }
               articles_data := cluster_group } : GClusterResult))
        _ (fun a => rfl) _
  rw [hres]
  refine ⟨by simp, ?_⟩
  intro r hr
  obtain ⟨a, _, rfl⟩ := List.mem_map.mp hr
  rfl

set_option maxRecDepth 100000 in
/-- Witness for C8 at a concrete oracle and batch, the per-result part
discharged on the one concrete result. -/
theorem C8_no_model_singleton_clusters_witness :
    (processGoogleArticlesClustered nlpAlwaysModi none pd0 [rawBridge]
        "Narendra Modi").length =
      ([rawBridge].filterMap
        (fun art => processSingleArticle nlpAlwaysModi pd0 art "Narendra Modi"
          "google_rss")).length ∧
    gBridgeResult.articles_data.length = 1 :=
  ⟨(C8_no_model_singleton_clusters nlpAlwaysModi pd0 [rawBridge] "Narendra Modi").1,
   (C8_no_model_singleton_clusters nlpAlwaysModi pd0 [rawBridge] "Narendra Modi").2
     gBridgeResult (by decide)⟩

/-- C9: an HTTP 401 is non-retryable.  From any loop state with at least one
attempt remaining, a 401 response makes `search` return failure having
issued exactly that one request, regardless of how much retry budget
(`fuel`) remains; in particular a 401 on the first request fails the whole
query at once. -/
theorem C9_401_fails_query_immediately :
    ∀ env : Nat → Payload → HttpOutcome,
      (∀ (attempt fuel : Nat) (p : Payload) (ra : Option Nat) (body : Option RespBody),
        env attempt p = .http 401 ra body →
        searchLoop env attempt p (fuel + 1) = (none, 1)) ∧
      (∀ (retry_count : Nat) (clustering : Bool) (ra : Option Nat)
          (body : Option RespBody),
        0 < retry_count →
        env 0 (initPayload clustering) = .http 401 ra body →
        search env retry_count clustering = (none, 1)) := by
  intro env
  have main : ∀ (attempt fuel : Nat) (p : Payload) (ra : Option Nat)
      (body : Option RespBody),
      env attempt p = .http 401 ra body →
      searchLoop env attempt p (fuel + 1) = (none, 1) := by
    intro attempt fuel p ra body h
    simp [searchLoop, h]
  refine ⟨main, ?_⟩
  intro retry_count clustering ra body hrc h
  obtain ⟨fuel, rfl⟩ : ∃ f, retry_count = f + 1 := ⟨retry_count - 1, by omega⟩
  exact main 0 fuel (initPayload clustering) ra body h

/-- Witness for C9 at a network oracle that always answers 401. -/
theorem C9_401_fails_query_immediately_witness :
    searchLoop envAll401 0 (initPayload true) (2 + 1) = (none, 1) ∧
    search envAll401 3 true = (none, 1) :=
  ⟨(C9_401_fails_query_immediately envAll401).1 0 2 (initPayload true) none none rfl,
   (C9_401_fails_query_immediately envAll401).2 3 true none none (by omega) rfl⟩

/-- Membership under descending insertion. -/
lemma mem_insertDescBy {α : Type} (key : α → Time) (x a : α) (l : List α) :
    a ∈ insertDescBy key x l ↔ a = x ∨ a ∈ l := by
  induction l with
  | nil => simp [insertDescBy]
  | cons y ys ih =>
    by_cases h : key y ≤ key x
    · simp [insertDescBy, h]
    · simp only [insertDescBy, if_neg h, List.mem_cons, ih]
      tauto

/-- Membership under the descending sort. -/
lemma mem_sortDescBy {α : Type} (key : α → Time) (l : List α) (a : α) :
    a ∈ sortDescBy key l ↔ a ∈ l := by
  induction l with
  | nil => simp [sortDescBy]
  | cons x xs ih => simp [sortDescBy, mem_insertDescBy, ih]

/-- Descending insertion commutes with a key-preserving map. -/
lemma insertDescBy_map {α β : Type} (key : β → Time) (g : α → β) (keyA : α → Time)
    (hkey : ∀ a, key (g a) = keyA a) (x : α) (l : List α) :
    insertDescBy key (g x) (l.map g) = (insertDescBy keyA x l).map g := by
  induction l with
  | nil => rfl
  | cons y ys ih =>
    simp only [List.map_cons, insertDescBy, hkey]
    by_cases h : keyA y ≤ keyA x
    · rw [if_pos h, if_pos h]
      simp
    · rw [if_neg h, if_neg h]
      simp [ih]

/-- Descending sort commutes with a key-preserving map. -/
lemma sortDescBy_map {α β : Type} (key : β → Time) (g : α → β) (keyA : α → Time)
    (hkey : ∀ a, key (g a) = keyA a) (l : List α) :
    sortDescBy key (l.map g) = (sortDescBy keyA l).map g := by
  induction l with
  | nil => rfl
  | cons x xs ih =>
    simp only [List.map_cons, sortDescBy, ih]
    exact insertDescBy_map key g keyA hkey x _

/-- C10: every story in the grouped read model either comes from a stored
cluster, with its reported `source_count` recomputed as the number of
article rows linked to that cluster, or from a standalone article
(no cluster reference) with `source_count` exactly 1; and the output is
entirely independent of the stored `source_count` column (overwriting the
column arbitrarily changes nothing). -/
theorem C10_grouped_counts_recomputed :
    ∀ (st : DBState) (now : Time) (days : Int) (person : Option String),
      (∀ s ∈ get_stories_grouped st now days person,
        (∃ c ∈ st.clusters, s = clusterStory st.articles c ∧
          s.source_count = linkedCount st.articles c.id) ∨
        (∃ a ∈ st.articles, a.cluster_id = none ∧ s = articleStory a ∧
          s.source_count = 1)) ∧
      (∀ f : NewsCluster → Int,
        get_stories_grouped (scrubCounts f st) now days person =
          get_stories_grouped st now days person) := by
  intro st now days person
  constructor
  · intro s hs
    simp only [get_stories_grouped, List.mem_append] at hs
    cases hs with
    | inl h =>
      obtain ⟨c, hc, rfl⟩ := List.mem_map.mp h
      rw [mem_sortDescBy] at hc
      exact Or.inl ⟨c, (List.mem_filter.mp hc).1, rfl, rfl⟩
    | inr h =>
      obtain ⟨a, ha, rfl⟩ := List.mem_map.mp h
      rw [mem_sortDescBy] at ha
      have h2 := List.mem_filter.mp ha
      have hcl : a.cluster_id = none := by
        have h3 := h2.2
        simp only [Bool.and_eq_true, beq_iff_eq] at h3
        exact h3.1.2
      exact Or.inr ⟨a, h2.1, hcl, rfl, rfl⟩
  · intro f
    simp only [get_stories_grouped, scrubCounts]
    rw [List.filter_map,
      sortDescBy_map (fun c : NewsCluster => c.first_published)
        (fun c : NewsCluster => { c with source_count := f c })
        (fun c : NewsCluster => c.first_published) (fun c => rfl),
      List.map_map]
    rfl

/-- Witness for C10 at a concrete two-row store, the per-story part
discharged on the one story that window contains and the scrub part on a
concrete overwrite. -/
theorem C10_grouped_counts_recomputed_witness :
    ((∃ c ∈ (⟨[freshCluster], [oldArticle]⟩ : DBState).clusters,
        clusterStory [oldArticle] freshCluster =
          clusterStory (⟨[freshCluster], [oldArticle]⟩ : DBState).articles c ∧
        (clusterStory [oldArticle] freshCluster).source_count =
          linkedCount (⟨[freshCluster], [oldArticle]⟩ : DBState).articles c.id) ∨
      (∃ a ∈ (⟨[freshCluster], [oldArticle]⟩ : DBState).articles,
        a.cluster_id = none ∧ clusterStory [oldArticle] freshCluster = articleStory a ∧
        (clusterStory [oldArticle] freshCluster).source_count = 1)) ∧
    (get_stories_grouped (scrubCounts (fun _ => 99) ⟨[freshCluster], [oldArticle]⟩)
        0 7 none =
      get_stories_grouped ⟨[freshCluster], [oldArticle]⟩ 0 7 none) :=
  ⟨(C10_grouped_counts_recomputed ⟨[freshCluster], [oldArticle]⟩ 0 7 none).1
     (clusterStory [oldArticle] freshCluster) (by decide),
   (C10_grouped_counts_recomputed ⟨[freshCluster], [oldArticle]⟩ 0 7 none).2
     (fun _ => 99)⟩

end NewsTracker
